import Mathlib

/-!
Shallow embedding of the library-management service
(`app/models.py`, `app/schemas.py`, `app/endpoints.py`, `app/auth.py`).

The persistence store is modelled as lists of rows in insertion order,
with autoincrement primary-key counters.  Each endpoint handler becomes a
pure function over the store; handlers that mutate the store return the
(possibly unchanged) store next to an `Except` outcome, mirroring the fact
that every `HTTPException` in the Python code is raised before any
`db.add` / attribute mutation / `db.commit`.  Timestamps (`datetime.now()`)
are passed in as an explicit `now : Nat` parameter.
-/

namespace Library

/-- Row of the `authors` table (`models.Author`). -/
structure Author where
  id : Nat
  name : String
  bio : Option String
deriving Repr, DecidableEq

/-- Row of the `books` table (`models.Book`). -/
structure Book where
  id : Nat
  title : String
  genre : String
  isbn : String
  author_id : Nat
deriving Repr, DecidableEq

/-- Row of the `loan_records` table (`models.LoanRecord`). -/
structure LoanRecord where
  id : Nat
  book_id : Nat
  borrower_name : String
  loaned_at : Nat
  returned_at : Option Nat
  is_returned : Bool
deriving Repr, DecidableEq

/-- Request body `schemas.AuthorCreate`. -/
structure AuthorCreate where
  name : String
  bio : Option String
deriving Repr, DecidableEq

/-- Request body `schemas.BookCreate`. -/
structure BookCreate where
  title : String
  genre : String
  isbn : String
  author_id : Nat
deriving Repr, DecidableEq

/-- Request body `schemas.BookUpdate`: every field optional, and
`model_dump(exclude_unset=True)` keeps exactly the keys the caller sent,
so `none` models a field omitted from the request. -/
structure BookUpdate where
  title : Option String
  genre : Option String
  isbn : Option String
deriving Repr, DecidableEq

/-- Request body `schemas.LoanRecordCreate`. -/
structure LoanRecordCreate where
  borrower_name : String
deriving Repr, DecidableEq

/-- The database: three tables in insertion order plus autoincrement
counters for the integer primary keys. -/
structure Store where
  authors : List Author
  books : List Book
  loans : List LoanRecord
  next_author_id : Nat
  next_book_id : Nat
  next_loan_id : Nat
deriving Repr, DecidableEq

/-- The store produced by `Base.metadata.create_all`: empty tables. -/
def emptyStore : Store :=
  { authors := [], books := [], loans := [],
    next_author_id := 1, next_book_id := 1, next_loan_id := 1 }

/-- Outcomes raised via `HTTPException`: 404 and 400 with their `detail`. -/
inductive ApiError where
  | notFound (detail : String)
  | badRequest (detail : String)
deriving Repr, DecidableEq

/-- Returns `true` exactly on the `Except.error` constructor. -/
def isErr {ε α : Type} : Except ε α → Bool
  | Except.error _ => true
  | Except.ok _ => false

/-- Replace the first element satisfying `p` by its image under `f`,
modelling an in-place update of the single ORM row returned by
`query.filter(...).first()`. -/
def replaceFirst {α : Type} (p : α → Bool) (f : α → α) : List α → List α
  | [] => []
  | x :: xs => if p x then f x :: xs else x :: replaceFirst p f xs

/-- Endpoint `POST /authors` (`create_author`): always inserts, id autoincrements. -/
def create_author (author : AuthorCreate) (s : Store) : Author × Store :=
  let db_author : Author :=
    { id := s.next_author_id, name := author.name, bio := author.bio }
  (db_author,
    { s with authors := s.authors ++ [db_author],
             next_author_id := s.next_author_id + 1 })

/-- Endpoint `GET /authors` (`list_authors`): `offset(skip).limit(limit)`. -/
def list_authors (skip limit : Nat) (s : Store) : List Author :=
  (s.authors.drop skip).take limit

/-- Endpoint `GET /authors/{id}` (`get_author`): the author with its books. -/
def get_author (author_id : Nat) (s : Store) :
    Except ApiError (Author × List Book) :=
  match s.authors.find? (fun a => a.id == author_id) with
  | none => Except.error (ApiError.notFound
      ("Author with id " ++ toString author_id ++ " not found"))
  | some author =>
      Except.ok (author, s.books.filter (fun b => b.author_id == author.id))

/-- Endpoint `POST /books` (`create_book`): author-existence check first, then
ISBN-uniqueness check, then insert. -/
def create_book (book : BookCreate) (s : Store) :
    Except ApiError Book × Store :=
  match s.authors.find? (fun a => a.id == book.author_id) with
  | none =>
      (Except.error (ApiError.notFound
        ("Author with id " ++ toString book.author_id ++ " not found")), s)
  | some _ =>
      match s.books.find? (fun b => b.isbn == book.isbn) with
      | some _ =>
          (Except.error (ApiError.badRequest
            ("Book with ISBN " ++ book.isbn ++ " already exists")), s)
      | none =>
          let db_book : Book :=
            { id := s.next_book_id, title := book.title, genre := book.genre,
              isbn := book.isbn, author_id := book.author_id }
          (Except.ok db_book,
            { s with books := s.books ++ [db_book],
                     next_book_id := s.next_book_id + 1 })

/-- SQL `LIKE` pattern matching over characters: `%` matches any sequence
(some suffix of the text matches the rest of the pattern), `_` matches any
single character, anything else matches itself.  This is the semantics
behind `Book.genre.ilike(...)`. -/
def likeMatch : List Char → List Char → Bool
  | [], s => s.isEmpty
  | c :: ps, s =>
      if c = '%' then
        (s.tails).any (fun t => likeMatch ps t)
      else if c = '_' then
        match s with
        | [] => false
        | _ :: t => likeMatch ps t
      else
        match s with
        | [] => false
        | c2 :: t => (c == c2) && likeMatch ps t

/-- Lower-cased character list of a string; `ilike` compares the
lower-casings of pattern and column (SQLite `lower()` is ASCII-only, as is
`Char.toLower`). -/
def lowerStr (x : String) : List Char :=
  x.toList.map Char.toLower

/-- The filter `Book.genre.ilike("%" + genre + "%")` as executed by the store. -/
def genreIlike (genre : String) (column : String) : Bool :=
  likeMatch (lowerStr ("%" ++ genre ++ "%")) (lowerStr column)

/-- Endpoint `GET /books` (`list_books`): optional genre filter (skipped for the
falsy empty string, as `if genre:` does), then `offset`/`limit`. -/
def list_books (skip limit : Nat) (genre : Option String) (s : Store) :
    List Book :=
  let q := s.books
  let q :=
    match genre with
    | some g => if g.isEmpty then q else q.filter (fun b => genreIlike g b.genre)
    | none => q
  (q.drop skip).take limit

/-- Endpoint `GET /books/{id}` (`get_book`): the book with its loan records. -/
def get_book (book_id : Nat) (s : Store) :
    Except ApiError (Book × List LoanRecord) :=
  match s.books.find? (fun b => b.id == book_id) with
  | none => Except.error (ApiError.notFound
      ("Book with id " ++ toString book_id ++ " not found"))
  | some book =>
      Except.ok (book, s.loans.filter (fun l => l.book_id == book.id))

/-- Apply the fields present in a `BookUpdate` to a row, as the
`for key, value in update_data.items(): setattr(db_book, key, value)`
loop does. -/
def applyUpdate (u : BookUpdate) (b : Book) : Book :=
  { b with title := u.title.getD b.title,
           genre := u.genre.getD b.genre,
           isbn := u.isbn.getD b.isbn }

/-- Endpoint `PUT /books/{id}` (`update_book`): 404 if absent; if `isbn` was sent
and differs from the current value, 400 when any book already holds it;
otherwise apply exactly the sent fields to the fetched row. -/
def update_book (book_id : Nat) (book_update : BookUpdate) (s : Store) :
    Except ApiError Book × Store :=
  match s.books.find? (fun b => b.id == book_id) with
  | none =>
      (Except.error (ApiError.notFound
        ("Book with id " ++ toString book_id ++ " not found")), s)
  | some db_book =>
      match book_update.isbn with
      | some i =>
          if i != db_book.isbn &&
              (s.books.find? (fun b => b.isbn == i)).isSome then
            (Except.error (ApiError.badRequest
              ("Book with ISBN " ++ i ++ " already exists")), s)
          else
            (Except.ok (applyUpdate book_update db_book),
              { s with books := (replaceFirst (fun b => b.id == book_id)
                  (fun _ => applyUpdate book_update db_book) s.books) })
      | none =>
          (Except.ok (applyUpdate book_update db_book),
            { s with books := (replaceFirst (fun b => b.id == book_id)
                (fun _ => applyUpdate book_update db_book) s.books) })

/-- Endpoint `POST /books/{id}/loan` (`loan_book`): 404 if the book is absent, 400
naming the current borrower if an unreturned loan exists, else insert a
fresh active loan stamped `now`. -/
def loan_book (book_id : Nat) (loan_data : LoanRecordCreate) (now : Nat)
    (s : Store) : Except ApiError LoanRecord × Store :=
  match s.books.find? (fun b => b.id == book_id) with
  | none =>
      (Except.error (ApiError.notFound
        ("Book with id " ++ toString book_id ++ " not found")), s)
  | some _ =>
      match s.loans.find?
          (fun l => l.book_id == book_id && l.is_returned == false) with
      | some active_loan =>
          (Except.error (ApiError.badRequest
            ("Book is already loaned out to " ++ active_loan.borrower_name)),
            s)
      | none =>
          let db_loan : LoanRecord :=
            { id := s.next_loan_id, book_id := book_id,
              borrower_name := loan_data.borrower_name, loaned_at := now,
              returned_at := none, is_returned := false }
          (Except.ok db_loan,
            { s with loans := s.loans ++ [db_loan],
                     next_loan_id := s.next_loan_id + 1 })

/-- Endpoint `POST /loans/{id}/return` (`return_book`): 404 if absent, 400 if the
record is already returned, else mark the fetched row returned at `now`. -/
def return_book (loan_id : Nat) (now : Nat) (s : Store) :
    Except ApiError LoanRecord × Store :=
  match s.loans.find? (fun l => l.id == loan_id) with
  | none =>
      (Except.error (ApiError.notFound
        ("Loan record with id " ++ toString loan_id ++ " not found")), s)
  | some loan =>
      if loan.is_returned then
        (Except.error (ApiError.badRequest
          "This book has already been returned"), s)
      else
        (Except.ok { loan with is_returned := true, returned_at := some now },
          { s with loans := (replaceFirst (fun l => l.id == loan_id)
              (fun l => { l with is_returned := true, returned_at := some now })
              s.loans) })

/-- Endpoint `GET /loans` (`list_loans`): optional `active_only` filter, then
`offset`/`limit`. -/
def list_loans (skip limit : Nat) (active_only : Bool) (s : Store) :
    List LoanRecord :=
  let q := s.loans
  let q := if active_only then q.filter (fun l => l.is_returned == false) else q
  (q.drop skip).take limit

/-- Endpoint `GET /health` (`health_check`): fixed payload. -/
def health_check : String × String :=
  ("healthy", "library-api")

/-- One call to any endpoint of the service, with its request data (and
the wall-clock instant for the handlers that read `datetime.now()`). -/
inductive Op where
  | createAuthor (a : AuthorCreate)
  | listAuthors (skip limit : Nat)
  | getAuthor (author_id : Nat)
  | createBook (b : BookCreate)
  | listBooks (skip limit : Nat) (genre : Option String)
  | getBook (book_id : Nat)
  | updateBook (book_id : Nat) (u : BookUpdate)
  | loanBook (book_id : Nat) (loan_data : LoanRecordCreate) (now : Nat)
  | returnBook (loan_id : Nat) (now : Nat)
  | listLoans (skip limit : Nat) (active_only : Bool)
  | health
deriving Repr, DecidableEq

/-- Effect of one call on the store.  Read-only endpoints are functions of
the store that return no store, so they leave it as is. -/
def applyOp (s : Store) : Op → Store
  | Op.createAuthor a => (create_author a s).2
  | Op.listAuthors _ _ => s
  | Op.getAuthor _ => s
  | Op.createBook b => (create_book b s).2
  | Op.listBooks _ _ _ => s
  | Op.getBook _ => s
  | Op.updateBook i u => (update_book i u s).2
  | Op.loanBook i d now => (loan_book i d now s).2
  | Op.returnBook i now => (return_book i now s).2
  | Op.listLoans _ _ _ => s
  | Op.health => s

/-- Stores reachable from the empty store by some sequence of calls. -/
inductive Reachable : Store → Prop
  | empty : Reachable emptyStore
  | step {s : Store} (h : Reachable s) (op : Op) : Reachable (applyOp s op)

/-- Number of unreturned loan records for a given book id. -/
def activeCount (s : Store) (bid : Nat) : Nat :=
  (s.loans.filter (fun l => l.book_id == bid && l.is_returned == false)).length

/-- Outcome of the access gate (`verify_api_key` in `app/auth.py`). -/
inductive AuthOutcome where
  | unauthorized
  | forbidden
  | proceed
deriving Repr, DecidableEq

/-- HTTP status the gate outcome maps to (`none` when the handler runs). -/
def authStatus : AuthOutcome → Option Nat
  | AuthOutcome.unauthorized => some 401
  | AuthOutcome.forbidden => some 403
  | AuthOutcome.proceed => none

/-- Default of `os.getenv("AUTH_KEY", "dev-secret-key-12345")`. -/
def AUTH_KEY_DEFAULT : String := "dev-secret-key-12345"

/-- Gate `verify_api_key` from `app/auth.py`, taking the value its
`APIKeyHeader` dependency injects (see `extractApiKey` for that layer).
Missing key raises 401, wrong key raises 403, matching key proceeds. -/
def verify_api_key (auth_key : String) (api_key : Option String) :
    AuthOutcome :=
  match api_key with
  | none => AuthOutcome.unauthorized
  | some k => if k != auth_key then AuthOutcome.forbidden
              else AuthOutcome.proceed

/-- Header extraction performed by the framework dependency
`APIKeyHeader(name="X-API-Key", auto_error=False)` before
`verify_api_key` runs: it reads the request header and, via
`if not api_key`, hands `None` to the gate both when the header is
absent and when its value is falsy — that is, the empty string. -/
def extractApiKey : Option String → Option String
  | none => none
  | some v => if v.isEmpty then none else some v

/-- Which endpoints declare `dependencies=[Depends(verify_api_key)]` in
`app/endpoints.py`: exactly the five mutating ones. -/
def requiresApiKey : Op → Bool
  | Op.createAuthor _ => true
  | Op.createBook _ => true
  | Op.updateBook _ _ => true
  | Op.loanBook _ _ _ => true
  | Op.returnBook _ _ => true
  | Op.listAuthors _ _ => false
  | Op.getAuthor _ => false
  | Op.listBooks _ _ _ => false
  | Op.getBook _ => false
  | Op.listLoans _ _ _ => false
  | Op.health => false

/-- The framework runs the gate before a handler exactly when the route
declares it; routes without the dependency never consult the credential. -/
def gateCheck (auth_key : String) (op : Op) (api_key : Option String) :
    AuthOutcome :=
  if requiresApiKey op then verify_api_key auth_key api_key
  else AuthOutcome.proceed

/-- Literal-substring test: does `sub` occur contiguously inside `s`?
Matching the lower-casings of column and argument makes this the
case-insensitive containment the specification describes. -/
def containsSub : List Char → List Char → Bool
  | [], sub => sub.isPrefixOf []
  | c :: t, sub => sub.isPrefixOf (c :: t) || containsSub t sub

/-- The book-listing the specification describes: insertion order,
filtered by case-insensitive literal containment of `genre`, then sliced.
Written from the specification text, to compare with `list_books`. -/
def listBooksSpec (skip limit : Nat) (genre : String) (s : Store) :
    List Book :=
  (((s.books.filter
      (fun b => containsSub (lowerStr b.genre) (lowerStr genre))).drop
        skip).take limit)

/-- No SQL wildcard character occurs in the list. -/
def noWildcard (l : List Char) : Bool :=
  l.all (fun c => !(c == '%') && !(c == '_'))

/-- A two-call demonstration store: one author, one book, no loans. -/
def demoStore : Store :=
  applyOp (applyOp emptyStore (Op.createAuthor ⟨"A", none⟩))
    (Op.createBook ⟨"B", "Fiction", "1111111111111", 1⟩)

/-- The store `demoStore` after loaning its book to John at instant 10. -/
def demoLoanStore : Store :=
  applyOp demoStore (Op.loanBook 1 ⟨"John"⟩ 10)

/-- The store `demoStore` plus a second book with a distinct ISBN. -/
def demoStore2 : Store :=
  applyOp demoStore (Op.createBook ⟨"C", "Drama", "2222222222", 1⟩)

end Library

namespace Library

lemma replaceFirst_find?_self {α : Type} (p : α → Bool) (a : α)
    (l : List α) (h : l.find? p = some a) :
    replaceFirst p (fun _ => a) l = l := by
  induction l with
  | nil => simp at h
  | cons x xs ih =>
      by_cases hx : p x
      · rw [List.find?_cons_of_pos _ hx] at h
        cases h
        simp [replaceFirst, hx]
      · rw [List.find?_cons_of_neg _ hx] at h
        simp [replaceFirst, hx, ih h]

lemma find?_replaceFirst_self {α : Type} (p : α → Bool) (f : α → α) (a : α)
    (hf : ∀ x, p (f x) = p x)
    (l : List α) (h : l.find? p = some a) :
    (replaceFirst p f l).find? p = some (f a) := by
  induction l with
  | nil => simp at h
  | cons x xs ih =>
      by_cases hx : p x
      · rw [List.find?_cons_of_pos _ hx] at h
        cases h
        have hfx : p (f a) = true := by rw [hf]; exact hx
        simp [replaceFirst, hx, List.find?_cons_of_pos _ hfx]
      · rw [List.find?_cons_of_neg _ hx] at h
        simp [replaceFirst, hx, List.find?_cons_of_neg _ hx, ih h]

lemma find?_replaceFirst_disjoint {α : Type} (p q : α → Bool) (f : α → α)
    (hpq : ∀ x, p x = true → q x = true → False)
    (hf : ∀ x, p (f x) = p x)
    (l : List α) :
    (replaceFirst q f l).find? p = l.find? p := by
  induction l with
  | nil => rfl
  | cons x xs ih =>
      by_cases hx : q x
      · have hpx : ¬ p x = true := fun hp => hpq x hp hx
        have hpfx : ¬ p (f x) = true := by rw [hf]; exact hpx
        simp [replaceFirst, hx, List.find?_cons_of_neg _ hpfx,
          List.find?_cons_of_neg _ hpx]
      · by_cases hp : p x
        · simp [replaceFirst, hx, List.find?_cons_of_pos _ hp]
        · simp [replaceFirst, hx, List.find?_cons_of_neg _ hp, ih]

lemma find?_append_left {α : Type} (p : α → Bool) (a : α) (l₁ l₂ : List α)
    (h : l₁.find? p = some a) : (l₁ ++ l₂).find? p = some a := by
  simp [List.find?_append, h, Option.or_some]

end Library

namespace Library

/-- C6: when the author is absent and the ISBN is already taken,
`create_book` reports the missing author (404), because the
author-existence check precedes the ISBN-uniqueness check. -/
theorem create_book_notFound_precedes_isbn_conflict
    (s : Store) (b : BookCreate)
    (hauthor : s.authors.find? (fun a => a.id == b.author_id) = none)
    (hisbn : (s.books.find? (fun bk => bk.isbn == b.isbn)).isSome = true) :
    create_book b s =
      (Except.error (ApiError.notFound
        ("Author with id " ++ toString b.author_id ++ " not found")), s) := by
  unfold create_book
  rw [hauthor]

/-- Witness for C6 at a concrete store: author 7 is absent while ISBN
1111111111111 is taken, and the outcome is the 404, not the 400. -/
theorem create_book_notFound_precedes_isbn_conflict_witness :
    create_book ⟨"C", "Drama", "1111111111111", 7⟩ demoStore =
      (Except.error (ApiError.notFound
        ("Author with id " ++ toString (7 : Nat) ++ " not found")),
        demoStore) :=
  create_book_notFound_precedes_isbn_conflict demoStore
    ⟨"C", "Drama", "1111111111111", 7⟩ (by decide) (by decide)

/-- C2: loaning a book that exists but already has an unreturned loan
record fails with the 400 naming the active borrower, and returns the
store exactly as it was (no loan record is created). -/
theorem loan_book_active_conflict
    (s : Store) (book_id : Nat) (d : LoanRecordCreate) (now : Nat)
    (B : Book) (al : LoanRecord)
    (hbook : s.books.find? (fun b => b.id == book_id) = some B)
    (hactive : s.loans.find?
        (fun l => l.book_id == book_id && l.is_returned == false) = some al) :
    loan_book book_id d now s =
      (Except.error (ApiError.badRequest
        ("Book is already loaned out to " ++ al.borrower_name)), s) := by
  unfold loan_book
  rw [hbook, hactive]

/-- Witness for C2: with John holding the book, loaning to Jane fails with
the message naming John and leaves the store untouched. -/
theorem loan_book_active_conflict_witness :
    loan_book 1 ⟨"Jane"⟩ 11 demoLoanStore =
      (Except.error (ApiError.badRequest
        ("Book is already loaned out to " ++ "John")), demoLoanStore) :=
  loan_book_active_conflict demoLoanStore 1 ⟨"Jane"⟩ 11
    ⟨1, "B", "Fiction", "1111111111111", 1⟩
    ⟨1, 1, "John", 10, none, false⟩ (by decide) (by decide)

/-- C9: the gate runs exactly on the five mutating endpoints; there an
absent credential yields 401, a wrong one 403, the right one proceeds;
every read endpoint (and the health probe) proceeds with no credential. -/
theorem api_key_gate_behaviour
    (auth_key : String) (op : Op) (cred : Option String) :
    (requiresApiKey op = true →
       (cred = none →
          gateCheck auth_key op cred = AuthOutcome.unauthorized ∧
          authStatus (gateCheck auth_key op cred) = some 401) ∧
       (∀ k, cred = some k → k ≠ auth_key →
          gateCheck auth_key op cred = AuthOutcome.forbidden ∧
          authStatus (gateCheck auth_key op cred) = some 403) ∧
       (cred = some auth_key →
          gateCheck auth_key op cred = AuthOutcome.proceed)) ∧
    (requiresApiKey op = false →
       gateCheck auth_key op cred = AuthOutcome.proceed) ∧
    (∀ a, requiresApiKey (Op.createAuthor a) = true) ∧
    (∀ b, requiresApiKey (Op.createBook b) = true) ∧
    (∀ i u, requiresApiKey (Op.updateBook i u) = true) ∧
    (∀ i d n, requiresApiKey (Op.loanBook i d n) = true) ∧
    (∀ i n, requiresApiKey (Op.returnBook i n) = true) ∧
    (∀ a b, requiresApiKey (Op.listAuthors a b) = false) ∧
    (∀ i, requiresApiKey (Op.getAuthor i) = false) ∧
    (∀ a b g, requiresApiKey (Op.listBooks a b g) = false) ∧
    (∀ i, requiresApiKey (Op.getBook i) = false) ∧
    (∀ a b c, requiresApiKey (Op.listLoans a b c) = false) ∧
    requiresApiKey Op.health = false := by
  refine ⟨?_, ?_, ?_, ?_, ?_, ?_, ?_, ?_, ?_, ?_, ?_, ?_, ?_⟩ <;>
    try (intros; rfl)
  · intro hreq
    refine ⟨?_, ?_, ?_⟩
    · rintro rfl
      simp [gateCheck, hreq, verify_api_key, authStatus]
    · rintro k rfl hk
      simp [gateCheck, hreq, verify_api_key, authStatus, hk]
    · rintro rfl
      simp [gateCheck, hreq, verify_api_key]
  · intro hreq
    simp [gateCheck, hreq]

/-- Witness for C9 on the return endpoint and the book listing: absent
key 401, wrong key 403, right key proceeds, read proceeds keyless. -/
theorem api_key_gate_behaviour_witness :
    gateCheck AUTH_KEY_DEFAULT (Op.returnBook 1 0) none =
      AuthOutcome.unauthorized ∧
    gateCheck AUTH_KEY_DEFAULT (Op.returnBook 1 0) (some "wrong-key") =
      AuthOutcome.forbidden ∧
    gateCheck AUTH_KEY_DEFAULT (Op.returnBook 1 0) (some AUTH_KEY_DEFAULT) =
      AuthOutcome.proceed ∧
    gateCheck AUTH_KEY_DEFAULT (Op.listBooks 0 100 none) none =
      AuthOutcome.proceed :=
  ⟨((api_key_gate_behaviour AUTH_KEY_DEFAULT (Op.returnBook 1 0) none).1
      rfl).1 rfl |>.1,
   ((api_key_gate_behaviour AUTH_KEY_DEFAULT (Op.returnBook 1 0)
      (some "wrong-key")).1 rfl).2.1 "wrong-key" rfl (by decide) |>.1,
   ((api_key_gate_behaviour AUTH_KEY_DEFAULT (Op.returnBook 1 0)
      (some AUTH_KEY_DEFAULT)).1 rfl).2.2 rfl,
   (api_key_gate_behaviour AUTH_KEY_DEFAULT (Op.listBooks 0 100 none)
      none).2.1 rfl⟩

/-- Counterexample to C10 as stated: a request to a gated endpoint that
presents the empty-string credential in its header is coerced to `None`
by the `APIKeyHeader` extraction (`if not api_key`), so the outcome is
the 401, not the claimed 403. -/
theorem empty_credential_counterexample :
    requiresApiKey (Op.loanBook 1 ⟨"John"⟩ 0) = true ∧
    extractApiKey (some "") = none ∧
    gateCheck AUTH_KEY_DEFAULT (Op.loanBook 1 ⟨"John"⟩ 0)
      (extractApiKey (some "")) = AuthOutcome.unauthorized ∧
    gateCheck AUTH_KEY_DEFAULT (Op.loanBook 1 ⟨"John"⟩ 0)
      (extractApiKey (some "")) ≠ AuthOutcome.forbidden := by
  exact ⟨rfl, rfl, rfl, by decide⟩

/-- C10 (amended): at a gated endpoint, a request whose credential header
is absent or carries the empty string gets 401; any present nonempty
value that differs byte-for-byte from the secret gets 403; a nonempty
value equal to the secret proceeds. -/
theorem empty_credential_unauthenticated
    (auth_key : String) (op : Op) (hreq : requiresApiKey op = true) :
    gateCheck auth_key op (extractApiKey (some "")) =
      AuthOutcome.unauthorized ∧
    gateCheck auth_key op (extractApiKey none) =
      AuthOutcome.unauthorized ∧
    (∀ v, v ≠ "" → v ≠ auth_key →
       gateCheck auth_key op (extractApiKey (some v)) =
         AuthOutcome.forbidden) ∧
    (∀ v, v ≠ "" → v = auth_key →
       gateCheck auth_key op (extractApiKey (some v)) =
         AuthOutcome.proceed) := by
  have hne_empty : ∀ v : String, v ≠ "" → v.isEmpty = false := by
    intro v hv
    rw [Bool.eq_false_iff]
    intro hemp
    exact hv ((String.isEmpty_iff v).mp hemp)
  refine ⟨?_, ?_, ?_, ?_⟩
  · rw [show extractApiKey (some "") = none from rfl]
    simp [gateCheck, hreq, verify_api_key]
  · rw [show extractApiKey none = none from rfl]
    simp [gateCheck, hreq, verify_api_key]
  · intro v hv hk
    simp [extractApiKey, hne_empty v hv, gateCheck, hreq, verify_api_key, hk]
  · intro v hv hk
    subst hk
    simp [extractApiKey, hne_empty v hv, gateCheck, hreq, verify_api_key]

/-- Witness for the amended C10 on the return endpoint with the default
secret: empty header 401, absent header 401, wrong nonempty key 403,
the secret itself proceeds. -/
theorem empty_credential_unauthenticated_witness :
    gateCheck AUTH_KEY_DEFAULT (Op.returnBook 1 0) (extractApiKey (some ""))
      = AuthOutcome.unauthorized ∧
    gateCheck AUTH_KEY_DEFAULT (Op.returnBook 1 0) (extractApiKey none)
      = AuthOutcome.unauthorized ∧
    gateCheck AUTH_KEY_DEFAULT (Op.returnBook 1 0) (extractApiKey (some "x"))
      = AuthOutcome.forbidden ∧
    gateCheck AUTH_KEY_DEFAULT (Op.returnBook 1 0)
      (extractApiKey (some AUTH_KEY_DEFAULT)) = AuthOutcome.proceed :=
  ⟨(empty_credential_unauthenticated AUTH_KEY_DEFAULT
      (Op.returnBook 1 0) rfl).1,
   (empty_credential_unauthenticated AUTH_KEY_DEFAULT
      (Op.returnBook 1 0) rfl).2.1,
   (empty_credential_unauthenticated AUTH_KEY_DEFAULT
      (Op.returnBook 1 0) rfl).2.2.1 "x" (by decide) (by decide),
   (empty_credential_unauthenticated AUTH_KEY_DEFAULT
      (Op.returnBook 1 0) rfl).2.2.2 AUTH_KEY_DEFAULT (by decide) rfl⟩

/-- C4: every handler raises before it mutates, so a 404/400 outcome
returns the store exactly as received; in particular `create_book` on a
taken ISBN (with an existing author) fails with precisely the
duplicate-ISBN 400 and leaves the book count unchanged. -/
theorem operations_atomic_on_failure (s : Store) :
    (∀ b, isErr (create_book b s).1 = true → (create_book b s).2 = s) ∧
    (∀ i u, isErr (update_book i u s).1 = true → (update_book i u s).2 = s) ∧
    (∀ i d n, isErr (loan_book i d n s).1 = true →
       (loan_book i d n s).2 = s) ∧
    (∀ i n, isErr (return_book i n s).1 = true →
       (return_book i n s).2 = s) ∧
    (∀ b, (s.authors.find? (fun a => a.id == b.author_id)).isSome = true →
       (s.books.find? (fun bk => bk.isbn == b.isbn)).isSome = true →
       create_book b s =
         (Except.error (ApiError.badRequest
           ("Book with ISBN " ++ b.isbn ++ " already exists")), s) ∧
       (create_book b s).2.books.length = s.books.length) := by
  refine ⟨?_, ?_, ?_, ?_, ?_⟩
  · intro b
    unfold create_book
    split
    · intro _; rfl
    · split
      · intro _; rfl
      · intro h; simp [isErr] at h
  · intro i u
    unfold update_book
    split
    · intro _; rfl
    · split
      · split
        · intro _; rfl
        · intro h; simp [isErr] at h
      · intro h; simp [isErr] at h
  · intro i d n
    unfold loan_book
    split
    · intro _; rfl
    · split
      · intro _; rfl
      · intro h; simp [isErr] at h
  · intro i n
    unfold return_book
    split
    · intro _; rfl
    · split
      · intro _; rfl
      · intro h; simp [isErr] at h
  · intro b hauthor hisbn
    rw [Option.isSome_iff_exists] at hauthor hisbn
    obtain ⟨a, ha⟩ := hauthor
    obtain ⟨bk, hbk⟩ := hisbn
    unfold create_book
    rw [ha, hbk]
    exact ⟨rfl, rfl⟩

/-- Witness for C4, on the duplicate-ISBN conjunct at a concrete store:
the second insert of ISBN 1111111111111 is exactly the duplicate-ISBN
400 and the store (hence the book count) is untouched. -/
theorem operations_atomic_on_failure_witness :
    create_book ⟨"C", "Drama", "1111111111111", 1⟩ demoStore =
      (Except.error (ApiError.badRequest
        ("Book with ISBN " ++ "1111111111111" ++ " already exists")),
        demoStore) ∧
    (create_book ⟨"C", "Drama", "1111111111111", 1⟩ demoStore).2.books.length
      = demoStore.books.length :=
  (operations_atomic_on_failure demoStore).2.2.2.2
    ⟨"C", "Drama", "1111111111111", 1⟩ (by decide) (by decide)

/-- C5: a successful `update_book` changes exactly the supplied fields of
the fetched book — omitted fields keep their values, supplied ones take
the sent value, id and author are untouched, nothing else in the store
moves — and with no field supplied the book and the whole store come back
exactly as they were. -/
theorem update_book_partial_update_frame
    (s : Store) (book_id : Nat) (u : BookUpdate) (b0 r : Book) (s2 : Store)
    (hfind : s.books.find? (fun b => b.id == book_id) = some b0)
    (hok : update_book book_id u s = (Except.ok r, s2)) :
    (u.title = none → r.title = b0.title) ∧
    (u.genre = none → r.genre = b0.genre) ∧
    (u.isbn = none → r.isbn = b0.isbn) ∧
    (∀ t, u.title = some t → r.title = t) ∧
    (∀ g, u.genre = some g → r.genre = g) ∧
    (∀ v, u.isbn = some v → r.isbn = v) ∧
    r.id = b0.id ∧ r.author_id = b0.author_id ∧
    s2.authors = s.authors ∧ s2.loans = s.loans ∧
    s2.books = replaceFirst (fun b => b.id == book_id) (fun _ => r) s.books ∧
    (u = ⟨none, none, none⟩ → r = b0 ∧ s2 = s) := by
  unfold update_book at hok
  rw [hfind] at hok
  have hmain : r = applyUpdate u b0 ∧
      s2 = { s with books := (replaceFirst (fun b => b.id == book_id)
        (fun _ => applyUpdate u b0) s.books) } := by
    cases hisbn2 : u.isbn with
    | some v =>
        rw [hisbn2] at hok
        dsimp only at hok
        by_cases hc : (v != b0.isbn &&
            (s.books.find? (fun b => b.isbn == v)).isSome) = true
        · rw [if_pos hc] at hok
          exact absurd (congrArg Prod.fst hok) (by simp)
        · rw [if_neg hc] at hok
          have h1 := congrArg Prod.fst hok
          have h2 := congrArg Prod.snd hok
          simp only [] at h1 h2
          cases h1
          exact ⟨rfl, h2.symm⟩
    | none =>
        rw [hisbn2] at hok
        dsimp only at hok
        have h1 := congrArg Prod.fst hok
        have h2 := congrArg Prod.snd hok
        simp only [] at h1 h2
        cases h1
        exact ⟨rfl, h2.symm⟩
  obtain ⟨hr, hs2⟩ := hmain
  subst hr
  subst hs2
  refine ⟨?_, ?_, ?_, ?_, ?_, ?_, rfl, rfl, rfl, rfl, rfl, ?_⟩
  · intro h; simp [applyUpdate, h]
  · intro h; simp [applyUpdate, h]
  · intro h; simp [applyUpdate, h]
  · intro t h; simp [applyUpdate, h]
  · intro g h; simp [applyUpdate, h]
  · intro v h; simp [applyUpdate, h]
  · rintro rfl
    have hb : applyUpdate ⟨none, none, none⟩ b0 = b0 := by
      simp [applyUpdate]
    refine ⟨hb, ?_⟩
    rw [hb, replaceFirst_find?_self _ _ _ hfind]

/-- Witness for C5: updating book 1 of the demonstration store with no
fields returns the book as stored and the identical store. -/
theorem update_book_partial_update_frame_witness :
    ((⟨none, none, none⟩ : BookUpdate).title = none →
       (⟨1, "B", "Fiction", "1111111111111", 1⟩ : Book).title = "B") ∧
    ((⟨none, none, none⟩ : BookUpdate) = ⟨none, none, none⟩ →
       (⟨1, "B", "Fiction", "1111111111111", 1⟩ : Book) =
         ⟨1, "B", "Fiction", "1111111111111", 1⟩ ∧ demoStore = demoStore) := by
  have h := update_book_partial_update_frame demoStore 1 ⟨none, none, none⟩
    ⟨1, "B", "Fiction", "1111111111111", 1⟩
    ⟨1, "B", "Fiction", "1111111111111", 1⟩ demoStore (by decide) (by rfl)
  exact ⟨fun hx => h.1 hx, fun _ => h.2.2.2.2.2.2.2.2.2.2.2 rfl⟩

/-- C7: on an existing book with `isbn` supplied, a value that differs
from the current one and is already held by some book yields the 400
whose message carries the ISBN and leaves the store as is, while a value
equal to the current one raises no conflict and the update succeeds. -/
theorem update_book_isbn_conflict_check
    (s : Store) (book_id : Nat) (u : BookUpdate) (b0 : Book) (v : String)
    (hfind : s.books.find? (fun b => b.id == book_id) = some b0)
    (hisbn : u.isbn = some v) :
    (v ≠ b0.isbn → (s.books.find? (fun b => b.isbn == v)).isSome = true →
       update_book book_id u s =
         (Except.error (ApiError.badRequest
           ("Book with ISBN " ++ v ++ " already exists")), s)) ∧
    (v = b0.isbn →
       update_book book_id u s =
         (Except.ok (applyUpdate u b0),
           { s with books := (replaceFirst (fun b => b.id == book_id)
               (fun _ => applyUpdate u b0) s.books) })) := by
  constructor
  · intro hne hdup
    unfold update_book
    rw [hfind, hisbn]
    dsimp only
    rw [if_pos (by simp [hdup, bne_iff_ne, hne])]
  · intro heq
    unfold update_book
    rw [hfind, hisbn]
    dsimp only
    rw [if_neg (by simp [heq])]

/-- Witness for C7: moving book 2 onto the taken ISBN 1111111111111 is
the 400 naming it; resending book 1 its own ISBN succeeds. -/
theorem update_book_isbn_conflict_check_witness :
    update_book 2 ⟨none, none, some "1111111111111"⟩ demoStore2 =
      (Except.error (ApiError.badRequest
        ("Book with ISBN " ++ "1111111111111" ++ " already exists")),
        demoStore2) ∧
    update_book 1 ⟨none, none, some "1111111111111"⟩ demoStore =
      (Except.ok (applyUpdate ⟨none, none, some "1111111111111"⟩
          ⟨1, "B", "Fiction", "1111111111111", 1⟩),
        { demoStore with books := (replaceFirst (fun b => b.id == 1)
            (fun _ => applyUpdate ⟨none, none, some "1111111111111"⟩
              ⟨1, "B", "Fiction", "1111111111111", 1⟩) demoStore.books) }) :=
  ⟨(update_book_isbn_conflict_check demoStore2 2
      ⟨none, none, some "1111111111111"⟩ ⟨2, "C", "Drama", "2222222222", 1⟩
      "1111111111111" (by decide) rfl).1 (by decide) (by decide),
   (update_book_isbn_conflict_check demoStore 1
      ⟨none, none, some "1111111111111"⟩ ⟨1, "B", "Fiction", "1111111111111", 1⟩
      "1111111111111" (by decide) rfl).2 rfl⟩

lemma returned_stays_returned
    (s2 : Store) (i : Nat) (l2 : LoanRecord)
    (hfind : s2.loans.find? (fun x => x.id == i) = some l2)
    (hret : l2.is_returned = true) (op : Op) :
    ∃ l3, (applyOp s2 op).loans.find? (fun x => x.id == i) = some l3 ∧
      l3.is_returned = true := by
  cases op with
  | createAuthor a => exact ⟨l2, hfind, hret⟩
  | listAuthors a b => exact ⟨l2, hfind, hret⟩
  | getAuthor a => exact ⟨l2, hfind, hret⟩
  | listBooks a b g => exact ⟨l2, hfind, hret⟩
  | getBook a => exact ⟨l2, hfind, hret⟩
  | listLoans a b c => exact ⟨l2, hfind, hret⟩
  | health => exact ⟨l2, hfind, hret⟩
  | createBook b =>
      refine ⟨l2, ?_, hret⟩
      show ((create_book b s2).2).loans.find? (fun x => x.id == i) = some l2
      unfold create_book
      split
      · exact hfind
      · split
        · exact hfind
        · exact hfind
  | updateBook j u =>
      refine ⟨l2, ?_, hret⟩
      show ((update_book j u s2).2).loans.find? (fun x => x.id == i) = some l2
      unfold update_book
      split
      · exact hfind
      · split
        · split
          · exact hfind
          · exact hfind
        · exact hfind
  | loanBook j d now =>
      refine ⟨l2, ?_, hret⟩
      show ((loan_book j d now s2).2).loans.find? (fun x => x.id == i) = some l2
      unfold loan_book
      split
      · exact hfind
      · split
        · exact hfind
        · exact find?_append_left _ _ _ _ hfind
  | returnBook j now =>
      show ∃ l3, ((return_book j now s2).2).loans.find? (fun x => x.id == i) =
        some l3 ∧ l3.is_returned = true
      unfold return_book
      split
      · exact ⟨l2, hfind, hret⟩
      · next loan heq =>
          split
          · exact ⟨l2, hfind, hret⟩
          · next hnret =>
              by_cases hij : i = j
              · subst hij
                rw [hfind] at heq
                cases heq
                exact absurd hret hnret
              · refine ⟨l2, ?_, hret⟩
                show (replaceFirst (fun x => x.id == j)
                    (fun x => { x with is_returned := true,
                                       returned_at := some now })
                    s2.loans).find? (fun x => x.id == i) = some l2
                rw [find?_replaceFirst_disjoint (fun x => x.id == i)
                  (fun x => x.id == j) _ ?_ ?_ s2.loans]
                · exact hfind
                · intro x hpi hpj
                  rw [beq_iff_eq] at hpi hpj
                  exact hij (hpi.symm.trans hpj)
                · intro x; rfl

lemma return_book_already_returned (t : Store) (lid n : Nat)
    (lr : LoanRecord)
    (h : t.loans.find? (fun x => x.id == lid) = some lr)
    (hr : lr.is_returned = true) :
    return_book lid n t =
      (Except.error (ApiError.badRequest "This book has already been returned"),
        t) := by
  unfold return_book
  rw [h]
  dsimp only
  rw [if_pos hr]

/-- C3: returning an existing unreturned loan succeeds, marking it
returned at the supplied instant; a second return of the same id is the
fixed 400 and hands back the store — hence also `returned_at` — exactly
as the first call left it; and no endpoint whatsoever moves a returned
loan record back to unreturned. -/
theorem return_book_one_way
    (s : Store) (loan_id now1 now2 : Nat) (l : LoanRecord)
    (hfind : s.loans.find? (fun x => x.id == loan_id) = some l)
    (hactive : l.is_returned = false) :
    (return_book loan_id now1 s).1 =
      Except.ok { l with is_returned := true, returned_at := some now1 } ∧
    ((return_book loan_id now1 s).2).loans.find? (fun x => x.id == loan_id) =
      some { l with is_returned := true, returned_at := some now1 } ∧
    return_book loan_id now2 ((return_book loan_id now1 s).2) =
      (Except.error (ApiError.badRequest "This book has already been returned"),
        (return_book loan_id now1 s).2) ∧
    (∀ s2 i l2, s2.loans.find? (fun x => x.id == i) = some l2 →
       l2.is_returned = true → ∀ op, ∃ l3,
         (applyOp s2 op).loans.find? (fun x => x.id == i) = some l3 ∧
         l3.is_returned = true) := by
  have hstep : return_book loan_id now1 s =
      (Except.ok { l with is_returned := true, returned_at := some now1 },
        { s with loans := (replaceFirst (fun x => x.id == loan_id)
            (fun x => { x with is_returned := true, returned_at := some now1 })
            s.loans) }) := by
    unfold return_book
    rw [hfind]
    dsimp only
    rw [if_neg (by simp [hactive])]
  have hfind2 : ((return_book loan_id now1 s).2).loans.find?
      (fun x => x.id == loan_id) =
      some { l with is_returned := true, returned_at := some now1 } := by
    rw [hstep]
    exact find?_replaceFirst_self (fun x => x.id == loan_id)
      (fun x => { x with is_returned := true, returned_at := some now1 }) l
      (fun x => rfl) s.loans hfind
  exact ⟨by rw [hstep], hfind2, return_book_already_returned _ _ _ _ hfind2 rfl,
    returned_stays_returned⟩

/-- Witness for C3 on the demonstration loan: returning it at 20 succeeds
with `returned_at = 20`, and the immediate second return at 21 is the
fixed 400 with the store untouched. -/
theorem return_book_one_way_witness :
    (return_book 1 20 demoLoanStore).1 =
      Except.ok ⟨1, 1, "John", 10, some 20, true⟩ ∧
    ((return_book 1 20 demoLoanStore).2).loans.find? (fun x => x.id == 1) =
      some ⟨1, 1, "John", 10, some 20, true⟩ ∧
    return_book 1 21 ((return_book 1 20 demoLoanStore).2) =
      (Except.error (ApiError.badRequest "This book has already been returned"),
        (return_book 1 20 demoLoanStore).2) := by
  have h := return_book_one_way demoLoanStore 1 20 21
    ⟨1, 1, "John", 10, none, false⟩ (by decide) rfl
  exact ⟨h.1, h.2.1, h.2.2.1⟩

lemma filter_replaceFirst_length_le {α : Type} (p q : α → Bool) (f : α → α)
    (hpf : ∀ x, p (f x) = true → p x = true) (l : List α) :
    ((replaceFirst q f l).filter p).length ≤ (l.filter p).length := by
  induction l with
  | nil => exact Nat.le_refl _
  | cons x xs ih =>
      by_cases hq : q x
      · simp only [replaceFirst, hq, if_true]
        by_cases hpfx : p (f x)
        · have hpx := hpf x hpfx
          simp [List.filter_cons, hpfx, hpx]
        · have hle : (xs.filter p).length ≤ ((x :: xs).filter p).length := by
            by_cases hpx : p x <;> simp [List.filter_cons, hpx]
          calc ((f x :: xs).filter p).length = (xs.filter p).length := by
                simp [List.filter_cons, hpfx]
            _ ≤ ((x :: xs).filter p).length := hle
      · simp only [replaceFirst, hq, if_false]
        by_cases hpx : p x <;> simp [List.filter_cons, hpx] <;> omega

lemma applyOp_activeCount_le (s : Store) (op : Op) (bid : Nat)
    (h : activeCount s bid ≤ 1) : activeCount (applyOp s op) bid ≤ 1 := by
  cases op with
  | createAuthor a => exact h
  | listAuthors a b => exact h
  | getAuthor a => exact h
  | listBooks a b g => exact h
  | getBook a => exact h
  | listLoans a b c => exact h
  | health => exact h
  | createBook b =>
      show activeCount ((create_book b s).2) bid ≤ 1
      unfold activeCount create_book at *
      split
      · exact h
      · split
        · exact h
        · exact h
  | updateBook j u =>
      show activeCount ((update_book j u s).2) bid ≤ 1
      unfold activeCount update_book at *
      split
      · exact h
      · split
        · split
          · exact h
          · exact h
        · exact h
  | loanBook j d now =>
      show activeCount ((loan_book j d now s).2) bid ≤ 1
      unfold activeCount loan_book at *
      split
      · exact h
      · split
        · exact h
        · next hnone =>
            dsimp only
            rw [List.filter_append, List.length_append]
            by_cases hj : (j == bid) = true
            · have hbid : j = bid := by rwa [beq_iff_eq] at hj
              subst hbid
              have hnil : s.loans.filter
                  (fun l => l.book_id == j && l.is_returned == false) = [] := by
                rw [List.filter_eq_nil_iff]
                intro a ha
                exact List.find?_eq_none.mp hnone a ha
              rw [hnil]
              simp
            · have : (fun (l : LoanRecord) =>
                  l.book_id == bid && l.is_returned == false)
                  { id := s.next_loan_id, book_id := j,
                    borrower_name := d.borrower_name, loaned_at := now,
                    returned_at := none, is_returned := false } = false := by
                simp only [Bool.and_eq_true, beq_iff_eq] at hj ⊢
                simp [hj]
              simp only [List.filter_cons, this, List.filter_nil]
              simpa using h
  | returnBook j now =>
      show activeCount ((return_book j now s).2) bid ≤ 1
      unfold activeCount return_book at *
      split
      · exact h
      · split
        · exact h
        · dsimp only
          exact Nat.le_trans
            (filter_replaceFirst_length_le _ _ _ (fun x hx => by
              simp only [Bool.and_eq_true] at hx
              exact absurd hx.2 (by simp)) s.loans) h

/-- C1: in every store reachable from the empty store by endpoint calls,
each book has at most one unreturned loan record. -/
theorem at_most_one_active_loan (s : Store) (h : Reachable s) :
    ∀ B ∈ s.books, activeCount s B.id ≤ 1 := by
  have main : ∀ t, Reachable t → ∀ bid, activeCount t bid ≤ 1 := by
    intro t ht
    induction ht with
    | empty => intro bid; simp [activeCount, emptyStore]
    | step hr op ih => intro bid; exact applyOp_activeCount_le _ op bid (ih bid)
  intro B _
  exact main s h B.id

/-- Witness for C1: the demonstration store is reachable in two calls and
its book (id 1) has at most one active loan. -/
theorem at_most_one_active_loan_witness :
    activeCount demoStore 1 ≤ 1 :=
  at_most_one_active_loan demoStore
    (Reachable.step (Reachable.step Reachable.empty _) _)
    ⟨1, "B", "Fiction", "1111111111111", 1⟩ (by decide)

end Library

namespace Library

lemma likeMatch_nil_eq (s : List Char) : likeMatch [] s = s.isEmpty := rfl

lemma likeMatch_pct_eq (ps s : List Char) :
    likeMatch ('%' :: ps) s = (s.tails).any (fun t => likeMatch ps t) := rfl

lemma likeMatch_lit_nil (p : Char) (ps : List Char) (h1 : p ≠ '%')
    (h2 : p ≠ '_') : likeMatch (p :: ps) [] = false := by
  rw [likeMatch.eq_def]
  dsimp only
  rw [if_neg h1, if_neg h2]

lemma likeMatch_lit_cons (p : Char) (ps : List Char) (c : Char)
    (t : List Char) (h1 : p ≠ '%') (h2 : p ≠ '_') :
    likeMatch (p :: ps) (c :: t) = ((p == c) && likeMatch ps t) := by
  rw [likeMatch.eq_def]
  dsimp only
  rw [if_neg h1, if_neg h2]

lemma tails_any_isEmpty (s : List Char) :
    (s.tails).any (fun t => t.isEmpty) = true := by
  induction s with
  | nil => rfl
  | cons c t ih => simp [List.tails, ih]

lemma likeMatch_lit_pct : ∀ (cs : List Char), noWildcard cs = true →
    ∀ s, likeMatch (cs ++ ['%']) s = cs.isPrefixOf s := by
  intro cs
  induction cs with
  | nil =>
      intro _ s
      rw [List.nil_append, likeMatch_pct_eq]
      simp only [likeMatch_nil_eq]
      rw [tails_any_isEmpty]
      simp
  | cons c cs' ih =>
      intro hw s
      simp only [noWildcard, List.all_cons, Bool.and_eq_true,
        Bool.not_eq_true', beq_eq_false_iff_ne, ne_eq] at hw
      obtain ⟨⟨hc1, hc2⟩, hw'⟩ := hw
      have hw'' : noWildcard cs' = true := by
        simpa [noWildcard] using hw'
      cases s with
      | nil =>
          rw [List.cons_append, likeMatch_lit_nil c _ hc1 hc2]
          rfl
      | cons c2 t =>
          rw [List.cons_append, likeMatch_lit_cons c _ c2 t hc1 hc2]
          rw [List.isPrefixOf_cons₂, ih hw'' t]

lemma containsSub_eq_any (s sub : List Char) :
    containsSub s sub = (s.tails).any (fun t => sub.isPrefixOf t) := by
  induction s with
  | nil => simp [containsSub, List.tails]
  | cons c t ih => simp [containsSub, List.tails, ih]

lemma likeMatch_pct_lit_pct (cs : List Char) (hw : noWildcard cs = true)
    (s : List Char) :
    likeMatch ('%' :: (cs ++ ['%'])) s = containsSub s cs := by
  rw [likeMatch_pct_eq, containsSub_eq_any]
  simp only [likeMatch_lit_pct cs hw]

lemma lowerStr_pct (g : String) :
    lowerStr ("%" ++ g ++ "%") = '%' :: (lowerStr g ++ ['%']) := by
  unfold lowerStr
  show ((("%" ++ g ++ "%").data).map Char.toLower) = _
  rw [String.data_append, String.data_append]
  show ((['%'] ++ g.data ++ ['%']).map Char.toLower) = _
  simp [List.map_append]

end Library
namespace Library

lemma toLower_ne_pct (c : Char) (h : c ≠ '%') : c.toLower ≠ '%' := by
  unfold Char.toLower
  simp only []
  by_cases hn : c.toNat ≥ 65 ∧ c.toNat ≤ 90
  · rw [if_pos hn]
    obtain ⟨h1, h2⟩ := hn
    intro hc
    set n := c.toNat with hdef
    clear hdef h
    interval_cases n <;> exact absurd hc (by decide)
  · rw [if_neg hn]; exact h

lemma toLower_ne_us (c : Char) (h : c ≠ '_') : c.toLower ≠ '_' := by
  unfold Char.toLower
  simp only []
  by_cases hn : c.toNat ≥ 65 ∧ c.toNat ≤ 90
  · rw [if_pos hn]
    obtain ⟨h1, h2⟩ := hn
    intro hc
    set n := c.toNat with hdef
    clear hdef h
    interval_cases n <;> exact absurd hc (by decide)
  · rw [if_neg hn]; exact h

lemma noWildcard_map_toLower (l : List Char) (h : noWildcard l = true) :
    noWildcard (l.map Char.toLower) = true := by
  unfold noWildcard at *
  rw [List.all_map]
  rw [List.all_eq_true] at h ⊢
  intro c hc
  have hcw := h c hc
  simp only [Function.comp, Bool.and_eq_true, Bool.not_eq_true',
    beq_eq_false_iff_ne, ne_eq] at hcw ⊢
  exact ⟨toLower_ne_pct c hcw.1, toLower_ne_us c hcw.2⟩

lemma containsSub_nil_right (s : List Char) : containsSub s [] = true := by
  cases s <;> simp [containsSub]

/-- C8 (amended): for genre arguments free of the SQL wildcard
characters `%` and `_`, the book listing is exactly the insertion-ordered
books whose genre contains the argument case-insensitively as a
substring, sliced by skip and limit. -/
theorem list_books_genre_filter (g : String)
    (hg : noWildcard g.toList = true) (skip limit : Nat) (s : Store) :
    list_books skip limit (some g) s = listBooksSpec skip limit g s := by
  unfold list_books listBooksSpec
  dsimp only
  by_cases hempty : g.isEmpty
  · rw [if_pos hempty]
    have hge : g = "" := (String.isEmpty_iff g).mp hempty
    subst hge
    have hfull : (s.books.filter
        (fun b => containsSub (lowerStr b.genre) (lowerStr ""))) = s.books := by
      rw [List.filter_eq_self]
      intro a _
      rw [show lowerStr "" = [] from rfl, containsSub_nil_right]
    rw [hfull]
  · rw [if_neg hempty]
    have key : ∀ b ∈ s.books, genreIlike g b.genre =
        containsSub (lowerStr b.genre) (lowerStr g) := by
      intro b _
      unfold genreIlike
      rw [lowerStr_pct]
      exact likeMatch_pct_lit_pct (lowerStr g)
        (noWildcard_map_toLower g.toList hg) (lowerStr b.genre)
    rw [List.filter_congr key]

/-- Counterexample to C8 as stated: the argument `F%n` is not contained
in the genre `Fiction` as a literal substring, yet the listing returns
that book, because `ilike` reads `%` as a wildcard. -/
theorem list_books_genre_counterexample :
    list_books 0 100 (some "F%n") demoStore =
      [⟨1, "B", "Fiction", "1111111111111", 1⟩] ∧
    containsSub (lowerStr "Fiction") (lowerStr "F%n") = false ∧
    listBooksSpec 0 100 "F%n" demoStore = [] := by
  exact ⟨by decide, by decide, by decide⟩

/-- Witness for the amended C8 at the wildcard-free argument
`Fiction` on the demonstration store. -/
theorem list_books_genre_filter_witness :
    noWildcard ("Fiction".toList) = true ∧
    list_books 0 100 (some "Fiction") demoStore =
      listBooksSpec 0 100 "Fiction" demoStore :=
  ⟨by decide, list_books_genre_filter "Fiction" (by decide) 0 100 demoStore⟩

end Library
